import Mathlib

/-! Shallow embedding of the core of gorb (Go Routing and Balancing): the
Context state manager (`src/unnamed/part_001`), the runtime entities
(`src/unnamed/part_002`), option validation (`src/core/options.go`), the
pulse notification loop (`src/core/runtime.go`) and the store
reconciliation.  Go maps are modelled as association lists in a fixed
iteration order, Go `float64` health values as exact rationals, and the
external collaborators (DNS resolution, netlink, pulse construction, the
kernel IPVS driver) as explicit environment oracles.  Every kernel call is
recorded in a trace so theorems can speak about which IPVS operations an
action performs. -/

namespace Gorb

/-- Association-list lookup, modelling Go map indexing `m[k]`. -/
def alookup {α β : Type} [DecidableEq α] : List (α × β) → α → Option β
  | [], _ => none
  | (k, v) :: t, a => if k = a then some v else alookup t a

/-- Association-list removal of the (unique) binding for `k`,
modelling Go `delete(m, k)`. -/
def aerase {α β : Type} [DecidableEq α] : List (α × β) → α → List (α × β)
  | [], _ => []
  | (k, v) :: t, a => if k = a then t else (k, v) :: aerase t a

/-- Association-list insert-or-replace, modelling Go map assignment
`m[k] = v`. -/
def aupsert {α β : Type} [DecidableEq α] : List (α × β) → α → β → List (α × β)
  | [], a, b => [(a, b)]
  | (k, v) :: t, a, b => if k = a then (a, b) :: t else (k, v) :: aupsert t a b

/-- A resolved IP address: the textual form plus its address family
(`v4 = true` for IPv4).  Models `net.IP` together with `util.AddrFamily`. -/
structure IPAddr where
  ip : String
  v4 : Bool
deriving DecidableEq

/-- pulse.StatusType: Up / Down / Removed. -/
inductive StatusType
  | up
  | down
  | removed
deriving DecidableEq

/-- pulse.Metrics; the float64 `Health` field is modelled as an exact
rational (uptime is never read by the core and is omitted). -/
structure Metrics where
  status : StatusType
  health : ℚ
deriving DecidableEq

/-- The Go zero value of `pulse.Metrics`. -/
def Metrics.zero : Metrics := { status := .up, health := 0 }

/-- pulse.ID: the (vsID, rsID) source of an update. -/
structure PulseID where
  vsID : String
  rsID : String
deriving DecidableEq

/-- pulse.Options; the probe configuration is opaque to the core, so only a
placeholder field is kept. -/
structure PulseOptions where
  typ : String
deriving DecidableEq

/-- pulse.Update as consumed by the notification loop. -/
structure PulseUpdate where
  source : PulseID
  metrics : Metrics
deriving DecidableEq

/-- The error taxonomy of the core (runtime.go / options.go variables),
plus the anonymous errors that flow through the same channels: DNS
resolution failures, the "service doesn't exist" error of
GetPoolForService, and pulse construction failures. -/
inductive GErr
  | missingEndpoint
  | unknownMethod
  | unknownProtocol
  | unknownFlag
  | unknownFallbackFlag
  | resolveFailed (host : String)
  | ipvsSyscallFailed
  | objectExists
  | objectNotFound
  | incompatibleAFs
  | poolNotFound
  | pulseFailed
deriving DecidableEq

/-- gnl2go scheduler flag bits (values from the kernel ip_vs headers). -/
def IP_VS_SVC_F_SCHED1 : Nat := 8

def IP_VS_SVC_F_SCHED2 : Nat := 16

def IP_VS_SVC_F_SCHED3 : Nat := 32

/-- The `schedulerFlags` map: value for a key, Go's zero value 0 when the
key is missing. -/
def schedulerFlagsVal : String → Nat
  | "sh-fallback" => IP_VS_SVC_F_SCHED1
  | "sh-port" => IP_VS_SVC_F_SCHED2
  | "flag-1" => IP_VS_SVC_F_SCHED1
  | "flag-2" => IP_VS_SVC_F_SCHED2
  | "flag-3" => IP_VS_SVC_F_SCHED3
  | _ => 0

/-- Presence test in the `schedulerFlags` map (the `_, ok :=` form). -/
def schedulerFlagsHas : String → Bool
  | "sh-fallback" | "sh-port" | "flag-1" | "flag-2" | "flag-3" => true
  | _ => false

/-- Fallback option code `Default`. -/
def FallbackDefault : Int := 0

/-- Fallback option code `ZeroToOne`. -/
def FallbackZeroToOne : Int := 1

/-- The `fallbackFlags` map: value for a key, Go's zero value 0 (= Default)
when the key is missing. -/
def fallbackFlagsVal : String → Int
  | "fb-default" => FallbackDefault
  | "fb-zero-to-one" => FallbackZeroToOne
  | _ => 0

/-- Presence test in the `fallbackFlags` map. -/
def fallbackFlagsHas : String → Bool
  | "fb-default" | "fb-zero-to-one" => true
  | _ => false

def IPPROTO_TCP : Nat := 6

def IPPROTO_UDP : Nat := 17

def IPVS_MASQUERADING : Nat := 0

def IPVS_TUNNELING : Nat := 2

def IPVS_DIRECTROUTE : Nat := 3

/-- core.ServiceOptions: the public configuration fields plus the derived
private fields filled in by Validate.  `Port`, `protocol` are uint16 and
`methodID` uint32 in Go; they are only ever copied, so Nat is used.
`MaxWeight` is int32. -/
structure ServiceOptions where
  Host : String
  Port : Nat
  Protocol : String
  LbMethod : String
  ShFlags : String
  Persistent : Bool
  Fallback : String
  FwdMethod : String
  Pulse : Option PulseOptions
  MaxWeight : Int
  host : IPAddr
  delIfAddr : Bool
  protocol : Nat
  methodID : Nat
deriving DecidableEq

/-- Split a character list at a separator; `[[]]` for the empty list,
mirroring Go strings.Split with a one-character separator. -/
def splitChars (sep : Char) : List Char → List (List Char)
  | [] => [[]]
  | c :: t =>
    match splitChars sep t with
    | [] => [[]]
    | h :: r => if c = sep then [] :: h :: r else (c :: h) :: r

/-- Go strings.Split(s, pipe): structurally recursive model of the pipe
split used for ShFlags and Fallback (the pipe is Char.ofNat 124). -/
def splitPipe (s : String) : List String :=
  (splitChars (Char.ofNat 124) s.data).map (fun l => String.mk l)

/-- Go strings.ToLower restricted to ASCII, structurally recursive. -/
def goToLower (s : String) : String :=
  String.mk (s.data.map Char.toLower)

/-- ServiceOptions.Validate (options.go): fills defaults and derived
fields.  DNS resolution (`net.ResolveIPAddr`) is the `resolve` oracle. -/
def ServiceOptions.Validate (resolve : String → Option IPAddr)
    (defaultHost : Option IPAddr) (o : ServiceOptions) :
    Except GErr ServiceOptions := do
  if o.Port = 0 then throw .missingEndpoint
  let o ←
    if o.Host.length ≠ 0 then
      match resolve o.Host with
      | some a => pure { o with host := a }
      | none => throw (GErr.resolveFailed o.Host)
    else
      match defaultHost with
      | some d => pure { o with host := d }
      | none => throw GErr.missingEndpoint
  let o := if o.Protocol.length = 0 then { o with Protocol := "tcp" } else o
  let o := { o with Protocol := goToLower o.Protocol }
  let o ←
    match o.Protocol with
    | "tcp" => pure { o with protocol := IPPROTO_TCP }
    | "udp" => pure { o with protocol := IPPROTO_UDP }
    | _ => throw GErr.unknownProtocol
  if o.ShFlags ≠ "" ∧ ¬ (splitPipe o.ShFlags).all schedulerFlagsHas then
    throw GErr.unknownFlag
  let o ←
    if o.Fallback ≠ "" then
      if (splitPipe o.Fallback).all fallbackFlagsHas then pure o
      else throw GErr.unknownFallbackFlag
    else pure { o with Fallback := "fb-default" }
  let o := if o.LbMethod.length = 0 then { o with LbMethod := "wrr" } else o
  let o := if o.MaxWeight ≤ 0 then { o with MaxWeight := 100 } else o
  let o := if o.FwdMethod.length = 0 then { o with FwdMethod := "nat" } else o
  let o := { o with FwdMethod := goToLower o.FwdMethod }
  let o ←
    match o.FwdMethod with
    | "dr" => pure { o with methodID := IPVS_DIRECTROUTE }
    | "nat" => pure { o with methodID := IPVS_MASQUERADING }
    | "tunnel" | "ipip" => pure { o with methodID := IPVS_TUNNELING }
    | _ => throw GErr.unknownMethod
  let o := if o.Pulse.isNone then { o with Pulse := some { typ := "" } } else o
  return o

/-- ServiceOptions.CompareStoreOptions: desired-state equality over the
nine public fields. -/
def ServiceOptions.CompareStoreOptions (o options : ServiceOptions) : Bool :=
  if o.Host ≠ options.Host then false
  else if o.Port ≠ options.Port then false
  else if o.Protocol ≠ options.Protocol then false
  else if o.ShFlags ≠ options.ShFlags then false
  else if o.LbMethod ≠ options.LbMethod then false
  else if o.Persistent ≠ options.Persistent then false
  else if o.Fallback ≠ options.Fallback then false
  else if o.FwdMethod ≠ options.FwdMethod then false
  else if o.MaxWeight ≠ options.MaxWeight then false
  else true

/-- core.BackendOptions: public Host/Port plus the private derived
fields. -/
structure BackendOptions where
  Host : String
  Port : Nat
  vsID : String
  host : IPAddr
  weight : Int
  pulse : Option PulseOptions
deriving DecidableEq

/-- BackendOptions.Validate (options.go). -/
def BackendOptions.Validate (resolve : String → Option IPAddr)
    (o : BackendOptions) : Except GErr BackendOptions :=
  if o.Host.length = 0 ∨ o.Port = 0 then .error .missingEndpoint
  else
    match resolve o.Host with
    | some a => .ok { o with host := a }
    | none => .error (.resolveFailed o.Host)

/-- BackendOptions.CompareStoreOptions: Host and Port only. -/
def BackendOptions.CompareStoreOptions (o options : BackendOptions) : Bool :=
  if o.Host ≠ options.Host then false
  else if o.Port ≠ options.Port then false
  else true

/-- gnl2go.Dest. -/
structure KDest where
  ip : String
  weight : Int
  port : Nat
deriving DecidableEq

/-- gnl2go.Service, the kernel-level descriptor.  The `Flags` byte slice is
modelled by the u32 mask it encodes (0 = unset, as produced when no flag
token matched). -/
structure KService where
  proto : Nat
  vip : String
  port : Nat
  sched : String
  flags : Nat
deriving DecidableEq

/-- gnl2go.Service.IsEqual lives in the external gnl2go library; per the
spec a kernel pool matches the derived descriptor when the same
(VIP, port, proto) is present. -/
def KService.IsEqual (s o : KService) : Bool :=
  s.vip == o.vip && s.port == o.port && s.proto == o.proto

/-- gnl2go.Pool: a kernel service plus its destinations. -/
structure KPool where
  service : KService
  dests : List KDest
deriving DecidableEq

/-- The kernel calls of the Ipvs interface (runtime.go); recorded in the
trace of a run. -/
inductive IpvsCall
  | getPools
  | addService (vip : String) (port proto : Nat) (sched : String)
  | addServiceWithFlags (vip : String) (port proto : Nat) (sched : String) (flags : Nat)
  | delService (vip : String) (port proto : Nat)
  | addDestPort (vip : String) (vport : Nat) (rip : String) (rport : Nat)
      (proto : Nat) (weight : Int) (fwd : Nat)
  | updateDestPort (vip : String) (vport : Nat) (rip : String) (rport : Nat)
      (proto : Nat) (weight : Int) (fwd : Nat)
  | delDestPort (vip : String) (vport : Nat) (rip : String) (rport : Nat) (proto : Nat)
deriving DecidableEq

/-- Effect of a successful kernel call on the kernel virtual-server
table. -/
def kernelApply (pools : List KPool) : IpvsCall → List KPool
  | .getPools => pools
  | .addService vip port proto sched =>
      pools ++ [{ service := { proto := proto, vip := vip, port := port, sched := sched, flags := 0 },
                  dests := [] }]
  | .addServiceWithFlags vip port proto sched flags =>
      pools ++ [{ service := { proto := proto, vip := vip, port := port, sched := sched, flags := flags },
                  dests := [] }]
  | .delService vip port proto =>
      pools.filter (fun p =>
        ! (p.service.vip == vip && p.service.port == port && p.service.proto == proto))
  | .addDestPort vip vport rip rport proto weight _ =>
      pools.map (fun p =>
        if p.service.vip == vip && p.service.port == vport && p.service.proto == proto then
          { p with dests := p.dests ++ [{ ip := rip, weight := weight, port := rport }] }
        else p)
  | .updateDestPort vip vport rip rport proto weight _ =>
      pools.map (fun p =>
        if p.service.vip == vip && p.service.port == vport && p.service.proto == proto then
          { p with dests := p.dests.map (fun d =>
              if d.ip == rip && d.port == rport then { d with weight := weight } else d) }
        else p)
  | .delDestPort vip vport rip rport proto =>
      pools.map (fun p =>
        if p.service.vip == vip && p.service.port == vport && p.service.proto == proto then
          { p with dests := p.dests.filter (fun d => ! (d.ip == rip && d.port == rport)) }
        else p)

/-- core.Backend.  The Go struct also holds the (never-assigned) rsID, the
back-pointer to the owning Service — realized here by looking the service
up in the Context — and the pulse monitor handle, which carries no state
the core reads. -/
structure Backend where
  options : BackendOptions
  metrics : Metrics
deriving DecidableEq

/-- core.Service. -/
structure Service where
  vsID : String
  options : ServiceOptions
  svc : KService
  backends : List (String × Backend)
deriving DecidableEq

/-- core.Context: the in-memory service map plus the default endpoint used
by validation.  The channels, lock and driver handles are modelled by the
environment and the explicit state threading. -/
structure Ctx where
  endpoint : Option IPAddr
  services : List (String × Service)
deriving DecidableEq

/-- The mutable world of a run: the Context, the kernel virtual-server
table, and the trace of kernel calls issued so far. -/
structure World where
  ctx : Ctx
  kernel : List KPool
  calls : List IpvsCall
deriving DecidableEq

/-- The environment of external collaborators: DNS resolution, the netlink
VIP interface, pulse construction, and the success oracles for the kernel
driver calls. -/
structure Env where
  resolve : String → Option IPAddr
  vipInterface : Bool
  addrAddOk : Bool
  addrDelOk : Bool
  pulseNewOk : String → Nat → Option PulseOptions → Bool
  ipvsOk : IpvsCall → Bool
  getPoolsOk : Bool

/-- Issue a kernel call: record it in the trace and, when the oracle says
it succeeds, apply its effect to the kernel table. -/
def doIpvs (env : Env) (w : World) (c : IpvsCall) : Bool × World :=
  let w := { w with calls := w.calls ++ [c] }
  if env.ipvsOk c then (true, { w with kernel := kernelApply w.kernel c }) else (false, w)

/-- Context.GetPoolForService: GetPools then a linear IsEqual scan.  A
GetPools failure maps to ErrIpvsSyscallFailed, an unmatched descriptor to
the anonymous "service doesn't exist" error. -/
def GetPoolForService (env : Env) (w : World) (svc : KService) :
    Except GErr KPool × World :=
  let w := { w with calls := w.calls ++ [IpvsCall.getPools] }
  if env.getPoolsOk then
    match w.kernel.find? (fun p => p.service.IsEqual svc) with
    | some p => (.ok p, w)
    | none => (.error .poolNotFound, w)
  else (.error .ipvsSyscallFailed, w)

/-- Service.BackendExist. -/
def Service.BackendExist (vs : Service) (rsID : String) : Bool :=
  (alookup vs.backends rsID).isSome

/-- Service.CreateBackend (part_002): validate, build the pulse probe, and
register the backend.  A fresh Backend carries the zero-valued metrics. -/
def Service.CreateBackend (env : Env) (vs : Service) (rsID : String)
    (opts : BackendOptions) : Except GErr Service :=
  match opts.Validate env.resolve with
  | .error e => .error e
  | .ok opts =>
    if env.pulseNewOk opts.host.ip opts.Port vs.options.Pulse then
      .ok { vs with backends := aupsert vs.backends rsID { options := opts, metrics := Metrics.zero } }
    else .error .pulseFailed

/-- Service.RemoveBackend (part_002). -/
def Service.RemoveBackend (vs : Service) (rsID : String) :
    Except GErr (BackendOptions × Service) :=
  match alookup vs.backends rsID with
  | none => .error .objectNotFound
  | some rs => .ok (rs.options, { vs with backends := aerase vs.backends rsID })

/-- core.ServiceInfo. -/
structure ServiceInfo where
  options : ServiceOptions
  health : ℚ
  backends : List String
  backendsCount : Nat
  fallBack : String
deriving DecidableEq

/-- Service.CalcServiceStat (part_002).  `BackendsCount` is a Go uint16,
hence the modulus; the health sum and the rsID list are accumulated in the
map's iteration order, which the association list fixes. -/
def Service.CalcServiceStat (vs : Service) : ServiceInfo :=
  let count := vs.backends.length % 65536
  if count ≠ 0 then
    { options := vs.options
      health := (vs.backends.foldl (fun a rs => a + rs.2.metrics.health) 0) / (count : ℚ)
      backends := vs.backends.map Prod.fst
      backendsCount := count
      fallBack := vs.options.Fallback }
  else
    { options := vs.options
      health := 0
      backends := []
      backendsCount := 0
      fallBack := vs.options.Fallback }

/-- Context.GetService. -/
def GetService (ctx : Ctx) (vsID : String) : Except GErr ServiceInfo :=
  match alookup ctx.services vsID with
  | none => .error .objectNotFound
  | some vs => .ok vs.CalcServiceStat

/-- Context.updateBackend: look both ids up, program UpdateDestPort, and
only on success swap the in-memory weight, returning the previous one. -/
def updateBackend (env : Env) (w : World) (vsID rsID : String) (weight : Int) :
    Except GErr Int × World :=
  match alookup w.ctx.services vsID with
  | none => (.error .objectNotFound, w)
  | some vs =>
    match alookup vs.backends rsID with
    | none => (.error .objectNotFound, w)
    | some rs =>
      let c := IpvsCall.updateDestPort vs.options.host.ip vs.options.Port
        rs.options.host.ip rs.options.Port vs.options.protocol weight vs.options.methodID
      let (ok, w) := doIpvs env w c
      if ok then
        let prev := rs.options.weight
        let rs := { rs with options := { rs.options with weight := weight } }
        let vs := { vs with backends := aupsert vs.backends rsID rs }
        (.ok prev, { w with ctx := { w.ctx with services := aupsert w.ctx.services vsID vs } })
      else (.error .ipvsSyscallFailed, w)

/-- Context.removeService: DelService, and only on success drop the entry
(Cleanup and the Disco removal have no observable effect here). -/
def removeService (env : Env) (w : World) (vsID : String) :
    Except GErr ServiceOptions × World :=
  match alookup w.ctx.services vsID with
  | none => (.error .objectNotFound, w)
  | some vs =>
    let (ok, w) := doIpvs env w (.delService vs.options.host.ip vs.options.Port vs.options.protocol)
    if ok then
      (.ok vs.options, { w with ctx := { w.ctx with services := aerase w.ctx.services vsID } })
    else (.error .ipvsSyscallFailed, w)

/-- Context.removeBackend. -/
def removeBackend (env : Env) (w : World) (vsID rsID : String) :
    Except GErr BackendOptions × World :=
  match alookup w.ctx.services vsID with
  | none => (.error .objectNotFound, w)
  | some vs =>
    match alookup vs.backends rsID with
    | none => (.error .objectNotFound, w)
    | some rs =>
      let (ok, w) := doIpvs env w (.delDestPort vs.options.host.ip vs.options.Port
        rs.options.host.ip rs.options.Port vs.options.protocol)
      if ok then
        match vs.RemoveBackend rsID with
        | .error e => (.error e, w)
        | .ok (opts, vs2) =>
          (.ok opts, { w with ctx := { w.ctx with services := aupsert w.ctx.services vsID vs2 } })
      else (.error .ipvsSyscallFailed, w)

/-- core.ServiceConfig (store.go): bundled service options and backends. -/
structure ServiceConfig where
  ServiceOptions : Gorb.ServiceOptions
  ServiceBackends : List (String × BackendOptions)
deriving DecidableEq

/-- The netlink VIP step of createService: when a VIP interface is
configured and AddrAdd succeeds, record that we own the alias. -/
def vipAdjust (env : Env) (so : ServiceOptions) : ServiceOptions :=
  if env.vipInterface && env.addrAddOk then { so with delIfAddr := true } else so

/-- The scheduler-flag mask OR-folded over the pipe-separated ShFlags
tokens (missing tokens contribute the map's zero value). -/
def shFlagsMask (s : String) : Nat :=
  (splitPipe s).foldl (fun a f => a ||| schedulerFlagsVal f) 0

/-- The kernel descriptor derived from validated service options. -/
def derivedKService (so : ServiceOptions) : KService :=
  { proto := so.protocol, vip := so.host.ip, port := so.Port,
    sched := so.LbMethod, flags := shFlagsMask so.ShFlags }

/-- The kernel call createService issues when no matching pool exists:
AddServiceWithFlags when the flag mask is non-zero, plain AddService
otherwise. -/
def serviceAddCall (svc : KService) : IpvsCall :=
  if svc.flags ≠ 0 then .addServiceWithFlags svc.vip svc.port svc.proto svc.sched svc.flags
  else .addService svc.vip svc.port svc.proto svc.sched

/-- Discriminates the two service-creation kernel calls. -/
def IpvsCall.isServiceCreation : IpvsCall → Bool
  | .addService _ _ _ _ => true
  | .addServiceWithFlags _ _ _ _ _ => true
  | _ => false

/-- Context.createBackend: validate input, check the address family,
query the kernel pool (any failure is ErrIpvsSyscallFailed), program
AddDestPort with weight MaxWeight unless the destination pre-exists, and
register the backend and its pulse task. -/
def createBackend (env : Env) (w : World) (vsID rsID : String)
    (opts : BackendOptions) : Except GErr Unit × World :=
  match alookup w.ctx.services vsID with
  | none => (.error .objectNotFound, w)
  | some vs =>
    if vs.BackendExist rsID then (.error .objectExists, w)
    else
      match opts.Validate env.resolve with
      | .error e => (.error e, w)
      | .ok opts =>
        if opts.host.v4 ≠ vs.options.host.v4 then (.error .incompatibleAFs, w)
        else
          let (poolRes, w) := GetPoolForService env w vs.svc
          match poolRes with
          | .error _ => (.error .ipvsSyscallFailed, w)
          | .ok pool =>
            let skipCreation := pool.dests.any (fun d => d.ip == opts.host.ip && d.port == opts.Port)
            let (ok, w) :=
              if skipCreation then (true, w)
              else doIpvs env w (.addDestPort vs.options.host.ip vs.options.Port
                opts.host.ip opts.Port vs.options.protocol vs.options.MaxWeight vs.options.methodID)
            if ok then
              match Service.CreateBackend env vs rsID opts with
              | .error e => (.error e, w)
              | .ok vs2 =>
                (.ok (), { w with ctx := { w.ctx with services := aupsert w.ctx.services vsID vs2 } })
            else (.error .ipvsSyscallFailed, w)

/-- The backend-initialization loop at the end of createService, and the
new-backend creation loop of Synchronize. -/
def createBackendsLoop (env : Env) (vsID : String) :
    World → List (String × BackendOptions) → Except GErr Unit × World
  | w, [] => (.ok (), w)
  | w, (rsID, opts) :: rest =>
    match createBackend env w vsID rsID opts with
    | (.error e, w2) => (.error e, w2)
    | (.ok _, w2) => createBackendsLoop env vsID w2 rest

/-- Context.createService: validate, reject duplicates, take the VIP
alias, skip kernel creation when a matching pool exists, otherwise
AddService/AddServiceWithFlags, install the entry, and create the bundled
backends (Disco failures are only logged). -/
def createService (env : Env) (w : World) (vsID : String) (cfg : ServiceConfig) :
    Except GErr Unit × World :=
  match cfg.ServiceOptions.Validate env.resolve w.ctx.endpoint with
  | .error e => (.error e, w)
  | .ok so =>
    if (alookup w.ctx.services vsID).isSome then (.error .objectExists, w)
    else
      let so := vipAdjust env so
      let svc := derivedKService so
      let (poolRes, w) := GetPoolForService env w svc
      let (ok, w) :=
        match poolRes with
        | .ok _ => (true, w)
        | .error _ => doIpvs env w (serviceAddCall svc)
      if ok then
        let service : Service := { vsID := vsID, options := so, svc := svc, backends := [] }
        let w := { w with ctx := { w.ctx with services := aupsert w.ctx.services vsID service } }
        createBackendsLoop env vsID w cfg.ServiceBackends
      else (.error .ipvsSyscallFailed, w)

/-- Go conversion int32(f) of a nonneg-or-neg float: truncation toward
zero (int32 overflow is not modelled; the loop only produces weights in
range). -/
def int32OfFloat (q : ℚ) : Int := if 0 ≤ q then ⌊q⌋ else ⌈q⌉

/-- The backend value after the notification loop overwrote its cached
metrics. -/
def updatedBackendService (vs : Service) (rsID : String) (rs : Backend) (m : Metrics) : Service :=
  { vs with backends := aupsert vs.backends rsID { rs with metrics := m } }

/-- The world after `rs.metrics = u.Metrics` in processPulseUpdate. -/
def writeBackendMetrics (w : World) (src : PulseID) (vs : Service) (rs : Backend)
    (m : Metrics) : World :=
  { w with ctx := { w.ctx with
      services := aupsert w.ctx.services src.vsID (updatedBackendService vs src.rsID rs m) } }

/-- The StatusUp arm of processPulseUpdate (runtime.go): unstash
gradually, deleting the stash entry on full recovery. -/
def pulseStatusUp (env : Env) (w : World) (stash : List (PulseID × Int))
    (src : PulseID) (health : ℚ) : List (PulseID × Int) × World :=
  match alookup stash src with
  | none => (stash, w)
  | some weight =>
    let weight2 := int32OfFloat ((weight : ℚ) * health)
    let (res, w) := updateBackend env w src.vsID src.rsID weight2
    match res with
    | .error _ => (stash, w)
    | .ok _ => if weight2 = weight then (aerase stash src, w) else (stash, w)

/-- The StatusDown arm of processPulseUpdate (runtime.go): weight 0, or 1
under the fb-zero-to-one fallback when the recomputed service health is
exactly zero; stash the previous weight unless already stashed. -/
def pulseStatusDown (env : Env) (w : World) (stash : List (PulseID × Int))
    (src : PulseID) : List (PulseID × Int) × World :=
  let backendWeight : Int :=
    match GetService w.ctx src.vsID with
    | .error _ => 0
    | .ok info => if info.health = 0 ∧ fallbackFlagsVal info.fallBack = FallbackZeroToOne then 1 else 0
  let (res, w) := updateBackend env w src.vsID src.rsID backendWeight
  match res with
  | .error _ => (stash, w)
  | .ok weight =>
    if (alookup stash src).isSome then (stash, w)
    else (aupsert stash src weight, w)

/-- Context.processPulseUpdate (runtime.go).  Deleting an absent stash key
is a no-op, so the guarded Go deletes are plain aerase calls here. -/
def processPulseUpdate (env : Env) (w : World) (stash : List (PulseID × Int))
    (u : PulseUpdate) : List (PulseID × Int) × World :=
  match alookup w.ctx.services u.source.vsID with
  | none => (aerase stash u.source, w)
  | some vs =>
    match alookup vs.backends u.source.rsID with
    | none => (aerase stash u.source, w)
    | some rs =>
      if u.metrics.status = .removed then (aerase stash u.source, w)
      else
        let w := writeBackendMetrics w u.source vs rs u.metrics
        match u.metrics.status with
        | .up => pulseStatusUp env w stash u.source u.metrics.health
        | .down => pulseStatusDown env w stash u.source
        | .removed => (stash, w)

/-- core.StoreSyncStatus.  Go appends always produce non-nil slices, so
the nil checks of CheckStatus become emptiness checks. -/
structure StoreSyncStatus where
  removedServices : List String
  removedBackends : List String
  updatedServices : List String
  updatedBackends : List String
  newServices : List String
  newBackends : List String
  status : String
deriving DecidableEq

/-- The zero StoreSyncStatus. -/
def StoreSyncStatus.empty : StoreSyncStatus :=
  { removedServices := [], removedBackends := [], updatedServices := []
    updatedBackends := [], newServices := [], newBackends := [], status := "" }

/-- StoreSyncStatus.CheckStatus. -/
def StoreSyncStatus.CheckStatus (s : StoreSyncStatus) : String :=
  if s.newServices.isEmpty ∧ s.newBackends.isEmpty ∧ s.updatedBackends.isEmpty ∧
      s.updatedServices.isEmpty ∧ s.removedBackends.isEmpty ∧ s.removedServices.isEmpty
  then "ok" else "need sync"

/-- One backend iteration of CompareWith: bucket removed or updated and
delete matched entries from the desired backends map. -/
def compareBackendsStep (vsID : String)
    (acc : StoreSyncStatus × List (String × BackendOptions)) (e : String × Backend) :
    StoreSyncStatus × List (String × BackendOptions) :=
  let (st, sb) := acc
  let (rsID, backend) := e
  let backendName := "[" ++ vsID ++ "/" ++ rsID ++ "]"
  match alookup sb rsID with
  | none => ({ st with removedBackends := st.removedBackends ++ [backendName] }, sb)
  | some storeBackendOptions =>
    let st :=
      if ¬ backend.options.CompareStoreOptions storeBackendOptions then
        { st with updatedBackends := st.updatedBackends ++ [backendName] }
      else st
    (st, aerase sb rsID)

/-- One service iteration of CompareWith.  The new-backend bucket uses the
backend's own (private) vsID field, exactly as the Go Sprintf does. -/
def compareServicesStep (acc : StoreSyncStatus × List (String × ServiceConfig))
    (e : String × Service) : StoreSyncStatus × List (String × ServiceConfig) :=
  let (st, store) := acc
  let (vsID, service) := e
  match alookup store vsID with
  | none => ({ st with removedServices := st.removedServices ++ [vsID] }, store)
  | some cfg =>
    let st :=
      if ¬ service.options.CompareStoreOptions cfg.ServiceOptions then
        { st with updatedServices := st.updatedServices ++ [vsID] }
      else st
    let (st, sb) := service.backends.foldl (compareBackendsStep vsID) (st, cfg.ServiceBackends)
    let st := sb.foldl
      (fun st e2 => { st with newBackends := st.newBackends ++ ["[" ++ e2.2.vsID ++ "/" ++ e2.1 ++ "]"] }) st
    (st, aerase store vsID)

/-- Context.CompareWith: diff the running state against the desired map,
mutating the desired map (returned as the second component) by deleting
every matched service and backend.  The Context itself is read-only here
(the Go method takes the shared lock and never writes it). -/
def CompareWith (ctx : Ctx) (storeServices : List (String × ServiceConfig)) :
    StoreSyncStatus × List (String × ServiceConfig) :=
  let (st, store) := ctx.services.foldl compareServicesStep (StoreSyncStatus.empty, storeServices)
  let st := store.foldl (fun st e => { st with newServices := st.newServices ++ [e.1] }) st
  ({ st with status := st.CheckStatus }, store)

/-- An exact desired-state snapshot of one running service. -/
def Service.snapshotConfig (vs : Service) : ServiceConfig :=
  { ServiceOptions := vs.options
    ServiceBackends := vs.backends.map (fun e => (e.1, e.2.options)) }

/-- An exact desired-state snapshot of the running configuration. -/
def Ctx.snapshot (ctx : Ctx) : List (String × ServiceConfig) :=
  ctx.services.map (fun e => (e.1, e.2.snapshotConfig))

/-- The backend diff-and-replace loop of Synchronize, over the backends
captured at the start of the service iteration; matched desired backends
are deleted from the desired map as in Go. -/
def syncBackendsLoop (env : Env) (vsID : String) :
    World → List (String × BackendOptions) → List (String × Backend) →
    Except GErr Unit × World × List (String × BackendOptions)
  | w, sb, [] => (.ok (), w, sb)
  | w, sb, (rsID, backend) :: rest =>
    match alookup sb rsID with
    | none =>
      match removeBackend env w vsID rsID with
      | (.error e, w2) => (.error e, w2, sb)
      | (.ok _, w2) => syncBackendsLoop env vsID w2 sb rest
    | some storeBackendOptions =>
      if ¬ backend.options.CompareStoreOptions storeBackendOptions then
        match removeBackend env w vsID rsID with
        | (.error e, w2) => (.error e, w2, sb)
        | (.ok _, w2) =>
          match createBackend env w2 vsID rsID storeBackendOptions with
          | (.error e, w3) => (.error e, w3, sb)
          | (.ok _, w3) => syncBackendsLoop env vsID w3 (aerase sb rsID) rest
      else syncBackendsLoop env vsID w (aerase sb rsID) rest

/-- The per-service loop of Synchronize over the services captured at
entry.  When the running options differ from the desired ones the service
is removed and re-created; the subsequent backend loop then ranges over
the captured `service.backends` map, which removeService → Cleanup has
just emptied in Go, so it sees no entries in that case. -/
def syncServicesLoop (env : Env) :
    World → List (String × ServiceConfig) → List (String × Service) →
    Except GErr Unit × World × List (String × ServiceConfig)
  | w, store, [] => (.ok (), w, store)
  | w, store, (vsID, service) :: rest =>
    match alookup store vsID with
    | none =>
      match removeService env w vsID with
      | (.error e, w2) => (.error e, w2, store)
      | (.ok _, w2) => syncServicesLoop env w2 store rest
    | some storeService =>
      let replace := ¬ service.options.CompareStoreOptions storeService.ServiceOptions
      let step1 : Except GErr Unit × World :=
        if replace then
          match removeService env w vsID with
          | (.error e, w2) => (.error e, w2)
          | (.ok _, w2) =>
            match createService env w2 vsID storeService with
            | (.error e, w3) => (.error e, w3)
            | (.ok _, w3) => (.ok (), w3)
        else (.ok (), w)
      match step1 with
      | (.error e, w2) => (.error e, w2, store)
      | (.ok _, w2) =>
        let oldBackends := if replace then [] else service.backends
        match syncBackendsLoop env vsID w2 storeService.ServiceBackends oldBackends with
        | (.error e, w3, _) => (.error e, w3, store)
        | (.ok _, w3, sb) =>
          match createBackendsLoop env vsID w3 sb with
          | (.error e, w4) => (.error e, w4, store)
          | (.ok _, w4) => syncServicesLoop env w4 (aerase store vsID) rest

/-- The new-service creation loop at the end of Synchronize. -/
def createServicesLoop (env : Env) :
    World → List (String × ServiceConfig) → Except GErr Unit × World
  | w, [] => (.ok (), w)
  | w, (vsID, cfg) :: rest =>
    match createService env w vsID cfg with
    | (.error e, w2) => (.error e, w2)
    | (.ok _, w2) => createServicesLoop env w2 rest

/-- Context.Synchronize (part_001): diff-and-replace the running services
and backends against the desired map, then create the remaining new
services.  Any error aborts the sync and is returned. -/
def Synchronize (env : Env) (w : World) (store : List (String × ServiceConfig)) :
    Except GErr Unit × World :=
  match syncServicesLoop env w store w.ctx.services with
  | (.error e, w2, _) => (.error e, w2)
  | (.ok _, w2, store2) => createServicesLoop env w2 store2

/-- An environment in which every external call succeeds and DNS
resolution is the identity (every host resolves to itself as an IPv4
address). -/
def envAll : Env :=
  { resolve := fun h => some { ip := h, v4 := true }
    vipInterface := false
    addrAddOk := true
    addrDelOk := true
    pulseNewOk := fun _ _ _ => true
    ipvsOk := fun _ => true
    getPoolsOk := true }

/-- Validated options of the sample service. -/
def soWeb : ServiceOptions :=
  { Host := "10.0.0.1", Port := 80, Protocol := "tcp", LbMethod := "wrr", ShFlags := ""
    Persistent := false, Fallback := "fb-default", FwdMethod := "nat"
    Pulse := some { typ := "" }, MaxWeight := 100
    host := { ip := "10.0.0.1", v4 := true }, delIfAddr := false
    protocol := 6, methodID := 0 }

/-- Sample backend options with current weight 100. -/
def boB1 : BackendOptions :=
  { Host := "10.0.0.2", Port := 8080, vsID := "", host := { ip := "10.0.0.2", v4 := true }
    weight := 100, pulse := none }

/-- Sample healthy backend. -/
def rsB1 : Backend := { options := boB1, metrics := { status := .up, health := 1 } }

/-- Sample service with one backend. -/
def svcWeb : Service :=
  { vsID := "web", options := soWeb, svc := derivedKService soWeb, backends := [("b1", rsB1)] }

/-- Sample context holding the sample service. -/
def ctx0 : Ctx := { endpoint := none, services := [("web", svcWeb)] }

/-- Sample world: the sample context, the matching kernel pool and an empty
trace. -/
def w0 : World :=
  { ctx := ctx0
    kernel := [{ service := derivedKService soWeb
                 dests := [{ ip := "10.0.0.2", weight := 100, port := 8080 }] }]
    calls := [] }

/-- The sample service under the fb-zero-to-one fallback. -/
def svcWebZ : Service :=
  { svcWeb with options := { soWeb with Fallback := "fb-zero-to-one" } }

/-- World holding the fb-zero-to-one sample service. -/
def wZ : World :=
  { w0 with ctx := { endpoint := none, services := [("web", svcWebZ)] } }

/-- Sample service with no backends, for backend-creation scenarios. -/
def svcWeb0 : Service := { svcWeb with backends := [] }

/-- World holding the sample service without backends and an empty kernel
destination list. -/
def wB : World :=
  { ctx := { endpoint := none, services := [("web", svcWeb0)] }
    kernel := [{ service := derivedKService soWeb, dests := [] }]
    calls := [] }

/-- Backend options as they arrive from deserialization: the private
weight field is the zero value. -/
def boNew : BackendOptions :=
  { Host := "10.0.0.2", Port := 8080, vsID := "", host := { ip := "10.0.0.2", v4 := true }
    weight := 0, pulse := none }

/-- Unvalidated desired options differing from `soWeb` in LbMethod. -/
def soDesiredRaw : ServiceOptions :=
  { Host := "10.0.0.1", Port := 80, Protocol := "tcp", LbMethod := "sh", ShFlags := ""
    Persistent := false, Fallback := "", FwdMethod := ""
    Pulse := none, MaxWeight := 0
    host := { ip := "", v4 := true }, delIfAddr := false
    protocol := 0, methodID := 0 }

/-- Desired config for the Synchronize scenario: changed service options
bundled with one backend. -/
def cfgDesired : ServiceConfig :=
  { ServiceOptions := soDesiredRaw, ServiceBackends := [("rs1", boNew)] }

/-- Running world for the Synchronize scenario: one service whose options
differ from the desired ones. -/
def wSync : World :=
  { ctx := { endpoint := none, services := [("vs1", { svcWeb0 with vsID := "vs1" })] }
    kernel := [{ service := derivedKService soWeb, dests := [] }]
    calls := [] }

/-- A two-character key for each index below 65536; all such keys are
distinct, so the list below models a well-formed Go map. -/
def keyOfNat (i : Nat) : String :=
  String.mk [Char.ofNat (i / 256), Char.ofNat (i % 256)]

/-- 65536 distinct-keyed healthy backends. -/
def bigBackends : List (String × Backend) :=
  (List.range 65536).map (fun i => (keyOfNat i, rsB1))

/-- A service with exactly 65536 backends. -/
def svcBig : Service :=
  { vsID := "big", options := soWeb, svc := derivedKService soWeb, backends := bigBackends }

/-- Context holding the 65536-backend service. -/
def ctxBig : Ctx := { endpoint := none, services := [("big", svcBig)] }

/-- The sample pulse source. -/
def srcWB : PulseID := { vsID := "web", rsID := "b1" }

/-- A Removed update from the sample source. -/
def updRemoved : PulseUpdate := { source := srcWB, metrics := { status := .removed, health := 0 } }

/-- An Up update with health one half from the sample source. -/
def updUpHalf : PulseUpdate := { source := srcWB, metrics := { status := .up, health := 1 / 2 } }

/-- A Down update with health zero from the sample source. -/
def updDown : PulseUpdate := { source := srcWB, metrics := { status := .down, health := 0 } }

theorem alookup_nil {α β : Type} [DecidableEq α] (a : α) :
    alookup ([] : List (α × β)) a = none := rfl

theorem alookup_cons {α β : Type} [DecidableEq α] (k : α) (v : β) (t : List (α × β)) (a : α) :
    alookup ((k, v) :: t) a = if k = a then some v else alookup t a := rfl

theorem alookup_cons_self {α β : Type} [DecidableEq α] (k : α) (v : β) (t : List (α × β)) :
    alookup ((k, v) :: t) k = some v := by
  simp [alookup]

theorem alookup_aupsert {α β : Type} [DecidableEq α] (m : List (α × β)) (k a : α) (v : β) :
    alookup (aupsert m k v) a = if k = a then some v else alookup m a := by
  induction m with
  | nil => simp [aupsert, alookup]
  | cons p t ih =>
    obtain ⟨k2, v2⟩ := p
    by_cases hk : k2 = k
    · subst hk
      by_cases ha : k2 = a <;> simp [aupsert, alookup, ha]
    · by_cases ha : k2 = a
      · subst ha
        have : ¬ k = k2 := fun h => hk h.symm
        simp [aupsert, alookup, hk, this]
      · simp [aupsert, alookup, hk, ha, ih]

theorem alookup_aupsert_self {α β : Type} [DecidableEq α] (m : List (α × β)) (k : α) (v : β) :
    alookup (aupsert m k v) k = some v := by
  simp [alookup_aupsert]

theorem aerase_cons_self {α β : Type} [DecidableEq α] (k : α) (v : β) (t : List (α × β)) :
    aerase ((k, v) :: t) k = t := by
  simp [aerase]

theorem aerase_of_alookup_none {α β : Type} [DecidableEq α] {m : List (α × β)} {k : α}
    (h : alookup m k = none) : aerase m k = m := by
  induction m with
  | nil => rfl
  | cons p t ih =>
    obtain ⟨k2, v2⟩ := p
    by_cases hk : k2 = k
    · simp [alookup, hk] at h
    · simp [alookup, hk] at h
      simp [aerase, hk, ih h]

theorem aerase_eq_filter {α β : Type} [DecidableEq α] (m : List (α × β)) (k : α)
    (h : (m.map Prod.fst).Nodup) : aerase m k = m.filter (fun e => e.1 ≠ k) := by
  induction m with
  | nil => rfl
  | cons p t ih =>
    obtain ⟨k2, v2⟩ := p
    simp only [List.map_cons, List.nodup_cons] at h
    by_cases hk : k2 = k
    · subst hk
      have hself : t.filter (fun e => !decide (e.1 = k2)) = t := by
        apply List.filter_eq_self.mpr
        intro e he
        simp only [Bool.not_eq_true', decide_eq_false_iff_not]
        intro hek
        exact h.1 (hek ▸ List.mem_map_of_mem Prod.fst he)
      simp only [aerase, List.filter, if_pos rfl]
      simp only [ne_eq, decide_not]
      simp [hself]
    · simp [aerase, hk, ih h.2, List.filter, hk]

theorem alookup_none_of_not_mem {α β : Type} [DecidableEq α] (m : List (α × β)) (a : α)
    (h : a ∉ m.map Prod.fst) : alookup m a = none := by
  induction m with
  | nil => rfl
  | cons p t ih =>
    obtain ⟨k2, v2⟩ := p
    simp only [List.map_cons, List.mem_cons] at h
    push_neg at h
    have hk : ¬ k2 = a := fun hh => h.1 hh.symm
    simp [alookup, hk, ih h.2]

theorem fallbackFlagsVal_eq_one (s : String) :
    fallbackFlagsVal s = FallbackZeroToOne ↔ s = "fb-zero-to-one" := by
  unfold fallbackFlagsVal
  split <;> simp_all [FallbackZeroToOne, FallbackDefault]

theorem serviceCompare_refl (o : ServiceOptions) : o.CompareStoreOptions o = true := by
  simp [ServiceOptions.CompareStoreOptions]

theorem backendCompare_refl (o : BackendOptions) : o.CompareStoreOptions o = true := by
  simp [BackendOptions.CompareStoreOptions]

theorem foldl_add_health (l : List (String × Backend)) (a : ℚ) :
    l.foldl (fun acc rs => acc + rs.2.metrics.health) a =
      a + (l.map (fun e => e.2.metrics.health)).sum := by
  induction l generalizing a with
  | nil => simp
  | cons p t ih => simp [ih, add_assoc]

theorem writeBackendMetrics_calls (w : World) (src : PulseID) (vs : Service) (rs : Backend)
    (m : Metrics) : (writeBackendMetrics w src vs rs m).calls = w.calls := rfl

/-- C4.  UpdateBackend returns ObjectNotFound when vsID or rsID is
unknown; when the kernel UpdateDestPort call fails it returns
SyscallFailed leaving the in-memory state (and the kernel table)
unchanged apart from the recorded attempt; when the call succeeds it sets
the in-memory weight to the new value and returns the weight the backend
held immediately before the call. -/
theorem gorb_c4_updateBackend (env : Env) (w : World) (vsID rsID : String) (weight : Int) :
    (alookup w.ctx.services vsID = none →
      updateBackend env w vsID rsID weight = (.error .objectNotFound, w)) ∧
    (∀ vs, alookup w.ctx.services vsID = some vs → alookup vs.backends rsID = none →
      updateBackend env w vsID rsID weight = (.error .objectNotFound, w)) ∧
    (∀ vs rs, alookup w.ctx.services vsID = some vs → alookup vs.backends rsID = some rs →
      (env.ipvsOk (IpvsCall.updateDestPort vs.options.host.ip vs.options.Port
          rs.options.host.ip rs.options.Port vs.options.protocol weight vs.options.methodID) = false →
        updateBackend env w vsID rsID weight =
          (.error .ipvsSyscallFailed,
           { w with calls := w.calls ++ [IpvsCall.updateDestPort vs.options.host.ip vs.options.Port
               rs.options.host.ip rs.options.Port vs.options.protocol weight vs.options.methodID] })) ∧
      (env.ipvsOk (IpvsCall.updateDestPort vs.options.host.ip vs.options.Port
          rs.options.host.ip rs.options.Port vs.options.protocol weight vs.options.methodID) = true →
        updateBackend env w vsID rsID weight =
          (.ok rs.options.weight,
           { ctx := { w.ctx with services := (aupsert w.ctx.services vsID
               { vs with backends := (aupsert vs.backends rsID
                   { rs with options := { rs.options with weight := weight } }) }) }
             kernel := (kernelApply w.kernel (IpvsCall.updateDestPort vs.options.host.ip vs.options.Port
               rs.options.host.ip rs.options.Port vs.options.protocol weight vs.options.methodID))
             calls := (w.calls ++ [IpvsCall.updateDestPort vs.options.host.ip vs.options.Port
               rs.options.host.ip rs.options.Port vs.options.protocol weight vs.options.methodID]) }))) := by
  refine ⟨?_, ?_, ?_⟩
  · intro h
    simp [updateBackend, h]
  · intro vs hvs hrs
    simp [updateBackend, hvs, hrs]
  · intro vs rs hvs hrs
    constructor
    · intro hfail
      simp [updateBackend, hvs, hrs, doIpvs, hfail]
    · intro hok
      simp [updateBackend, hvs, hrs, doIpvs, hok]

/-- Witness for C4: on the sample world, updating backend b1 to weight 7
succeeds, returns the previous weight 100, and stores 7. -/
theorem gorb_c4_updateBackend_witness :
    alookup w0.ctx.services "web" = some svcWeb ∧
    alookup svcWeb.backends "b1" = some rsB1 ∧
    updateBackend envAll w0 "web" "b1" 7 =
      (.ok rsB1.options.weight,
       { ctx := { w0.ctx with services := (aupsert w0.ctx.services "web"
           { svcWeb with backends := (aupsert svcWeb.backends "b1"
               { rsB1 with options := { rsB1.options with weight := 7 } }) }) }
         kernel := (kernelApply w0.kernel (IpvsCall.updateDestPort svcWeb.options.host.ip
           svcWeb.options.Port rsB1.options.host.ip rsB1.options.Port svcWeb.options.protocol
           7 svcWeb.options.methodID))
         calls := (w0.calls ++ [IpvsCall.updateDestPort svcWeb.options.host.ip svcWeb.options.Port
           rsB1.options.host.ip rsB1.options.Port svcWeb.options.protocol 7 svcWeb.options.methodID]) }) := by
  refine ⟨by decide, by decide, ?_⟩
  exact (gorb_c4_updateBackend envAll w0 "web" "b1" 7).2.2 svcWeb rsB1 (by decide) (by decide)
    |>.2 (by decide)

/-- C6.  A pulse update whose vsID is unknown, whose rsID is unknown
within its service, or whose status is Removed only deletes the stash
entry for its source: the world — kernel table, call trace and every
backend's cached metrics — is returned unchanged. -/
theorem gorb_c6_pulse_discard (env : Env) (w : World) (stash : List (PulseID × Int))
    (u : PulseUpdate)
    (h : alookup w.ctx.services u.source.vsID = none ∨
         (∃ vs, alookup w.ctx.services u.source.vsID = some vs ∧
            alookup vs.backends u.source.rsID = none) ∨
         u.metrics.status = .removed) :
    processPulseUpdate env w stash u = (aerase stash u.source, w) := by
  rcases h with h | ⟨vs, h1, h2⟩ | h
  · simp [processPulseUpdate, h]
  · simp [processPulseUpdate, h1, h2]
  · cases h1 : alookup w.ctx.services u.source.vsID with
    | none => simp [processPulseUpdate, h1]
    | some vs =>
      cases h2 : alookup vs.backends u.source.rsID with
      | none => simp [processPulseUpdate, h1, h2]
      | some rs => simp [processPulseUpdate, h1, h2, h]

/-- Witness for C6: a Removed update on the sample backend clears the
stash and leaves the world untouched. -/
theorem gorb_c6_pulse_discard_witness :
    updRemoved.metrics.status = .removed ∧
    processPulseUpdate envAll w0 [(srcWB, (12 : Int))] updRemoved = ([], w0) := by
  constructor
  · rfl
  · have h := gorb_c6_pulse_discard envAll w0 [(srcWB, (12 : Int))] updRemoved
      (Or.inr (Or.inr rfl))
    simpa [aerase, srcWB] using h

/-- C1.  On an Up update for a known backend: with no stash entry, only
the cached metrics are overwritten and no kernel call is made; with a
stash entry `wt` (weights and health are nonnegative), the loop computes
the new weight as the floor of `wt * health`, hands it to UpdateBackend,
and afterwards deletes the stash entry exactly when the update succeeded
and the new weight equals the stashed one. -/
theorem gorb_c1_pulse_up (env : Env) (w : World) (stash : List (PulseID × Int))
    (u : PulseUpdate) (vs : Service) (rs : Backend)
    (hvs : alookup w.ctx.services u.source.vsID = some vs)
    (hrs : alookup vs.backends u.source.rsID = some rs)
    (hst : u.metrics.status = .up) :
    (alookup stash u.source = none →
      processPulseUpdate env w stash u = (stash, writeBackendMetrics w u.source vs rs u.metrics) ∧
      (writeBackendMetrics w u.source vs rs u.metrics).calls = w.calls) ∧
    (∀ wt : Int, alookup stash u.source = some wt → 0 ≤ wt → 0 ≤ u.metrics.health →
      processPulseUpdate env w stash u =
        ((match (updateBackend env (writeBackendMetrics w u.source vs rs u.metrics)
              u.source.vsID u.source.rsID ⌊(wt : ℚ) * u.metrics.health⌋).1 with
          | .ok _ =>
            if ⌊(wt : ℚ) * u.metrics.health⌋ = wt then aerase stash u.source else stash
          | .error _ => stash),
         (updateBackend env (writeBackendMetrics w u.source vs rs u.metrics)
            u.source.vsID u.source.rsID ⌊(wt : ℚ) * u.metrics.health⌋).2)) := by
  constructor
  · intro hnone
    refine ⟨?_, rfl⟩
    simp [processPulseUpdate, hvs, hrs, hst, pulseStatusUp, hnone]
  · intro wt hsome hwt hh
    have hq : (0 : ℚ) ≤ (wt : ℚ) * u.metrics.health :=
      mul_nonneg (by exact_mod_cast hwt) hh
    have hfl : int32OfFloat ((wt : ℚ) * u.metrics.health) = ⌊(wt : ℚ) * u.metrics.health⌋ := by
      simp [int32OfFloat, hq]
    simp only [processPulseUpdate, hvs, hrs, hst]
    simp only [reduceCtorEq, if_false, reduceIte]
    simp only [pulseStatusUp, hsome, hfl]
    rcases hub : updateBackend env (writeBackendMetrics w u.source vs rs u.metrics)
        u.source.vsID u.source.rsID ⌊(wt : ℚ) * u.metrics.health⌋ with ⟨res, w2⟩
    cases res with
    | error e => simp
    | ok a => by_cases hc : ⌊(wt : ℚ) * u.metrics.health⌋ = wt <;> simp [hc]

/-- Witness for C1 (partial recovery): stash 12, Up with health one half
— the kernel is reprogrammed to weight 6 and the stash keeps 12. -/
theorem gorb_c1_pulse_up_witness :
    alookup w0.ctx.services updUpHalf.source.vsID = some svcWeb ∧
    alookup svcWeb.backends updUpHalf.source.rsID = some rsB1 ∧
    updUpHalf.metrics.status = .up ∧
    alookup [(srcWB, (12 : Int))] updUpHalf.source = some 12 ∧
    (processPulseUpdate envAll w0 [(srcWB, (12 : Int))] updUpHalf).1 = [(srcWB, (12 : Int))] ∧
    (processPulseUpdate envAll w0 [(srcWB, (12 : Int))] updUpHalf).2.calls =
      [IpvsCall.updateDestPort "10.0.0.1" 80 "10.0.0.2" 8080 6 6 0] := by
  have h := (gorb_c1_pulse_up envAll w0 [(srcWB, (12 : Int))] updUpHalf svcWeb rsB1
      (by decide) (by decide) rfl).2 12 (by decide) (by decide) (by norm_num [updUpHalf])
  have h6 : ((12 : Int) : ℚ) * updUpHalf.metrics.health = ((6 : Int) : ℚ) := by
    norm_num [updUpHalf]
  have hfl : ⌊((12 : Int) : ℚ) * updUpHalf.metrics.health⌋ = (6 : Int) := by
    rw [h6, Int.floor_intCast]
  rw [hfl] at h
  refine ⟨by decide, by decide, rfl, by decide, ?_, ?_⟩ <;> rw [h] <;> decide

theorem updateBackend_eq (env : Env) (w : World) (vsID rsID : String) (weight : Int)
    (vs : Service) (rs : Backend)
    (hvs : alookup w.ctx.services vsID = some vs)
    (hrs : alookup vs.backends rsID = some rs) :
    updateBackend env w vsID rsID weight =
      (if env.ipvsOk (IpvsCall.updateDestPort vs.options.host.ip vs.options.Port
            rs.options.host.ip rs.options.Port vs.options.protocol weight vs.options.methodID) then
        (.ok rs.options.weight,
         { ctx := { w.ctx with services := (aupsert w.ctx.services vsID
             { vs with backends := (aupsert vs.backends rsID
                 { rs with options := { rs.options with weight := weight } }) }) }
           kernel := (kernelApply w.kernel (IpvsCall.updateDestPort vs.options.host.ip vs.options.Port
             rs.options.host.ip rs.options.Port vs.options.protocol weight vs.options.methodID))
           calls := (w.calls ++ [IpvsCall.updateDestPort vs.options.host.ip vs.options.Port
             rs.options.host.ip rs.options.Port vs.options.protocol weight vs.options.methodID]) })
      else
        (.error .ipvsSyscallFailed,
         { w with calls := (w.calls ++ [IpvsCall.updateDestPort vs.options.host.ip vs.options.Port
             rs.options.host.ip rs.options.Port vs.options.protocol weight vs.options.methodID]) })) := by
  cases hok : env.ipvsOk (IpvsCall.updateDestPort vs.options.host.ip vs.options.Port
      rs.options.host.ip rs.options.Port vs.options.protocol weight vs.options.methodID) <;>
    simp [updateBackend, hvs, hrs, doIpvs, hok]

/-- C2.  On a Down update for a known backend the loop programs
UpdateDestPort with weight 0, or weight 1 when the service health
recomputed over the current backend map is exactly 0 and the service's
Fallback is fb-zero-to-one; when the update succeeds, the returned
previous weight is stashed only if no entry exists, and an existing stash
entry is never overwritten. -/
theorem gorb_c2_pulse_down (env : Env) (w : World) (stash : List (PulseID × Int))
    (u : PulseUpdate) (vs : Service) (rs : Backend)
    (hvs : alookup w.ctx.services u.source.vsID = some vs)
    (hrs : alookup vs.backends u.source.rsID = some rs)
    (hst : u.metrics.status = .down) :
    ((processPulseUpdate env w stash u).2.calls =
      w.calls ++ [IpvsCall.updateDestPort vs.options.host.ip vs.options.Port
        rs.options.host.ip rs.options.Port vs.options.protocol
        (if (Service.CalcServiceStat (updatedBackendService vs u.source.rsID rs u.metrics)).health = 0 ∧
            (Service.CalcServiceStat (updatedBackendService vs u.source.rsID rs u.metrics)).fallBack
              = "fb-zero-to-one"
         then 1 else 0) vs.options.methodID]) ∧
    (env.ipvsOk (IpvsCall.updateDestPort vs.options.host.ip vs.options.Port
        rs.options.host.ip rs.options.Port vs.options.protocol
        (if (Service.CalcServiceStat (updatedBackendService vs u.source.rsID rs u.metrics)).health = 0 ∧
            (Service.CalcServiceStat (updatedBackendService vs u.source.rsID rs u.metrics)).fallBack
              = "fb-zero-to-one"
         then 1 else 0) vs.options.methodID) = true →
      (processPulseUpdate env w stash u).1 =
        if (alookup stash u.source).isSome then stash
        else aupsert stash u.source rs.options.weight) := by
  have hred : processPulseUpdate env w stash u =
      pulseStatusDown env (writeBackendMetrics w u.source vs rs u.metrics) stash u.source := by
    simp [processPulseUpdate, hvs, hrs, hst]
  have hwm : alookup (writeBackendMetrics w u.source vs rs u.metrics).ctx.services u.source.vsID =
      some (updatedBackendService vs u.source.rsID rs u.metrics) := by
    simp [writeBackendMetrics, alookup_aupsert_self]
  have hrs2 : alookup (updatedBackendService vs u.source.rsID rs u.metrics).backends u.source.rsID =
      some ({ rs with metrics := u.metrics }) := by
    simp [updatedBackendService, alookup_aupsert_self]
  have hgs : GetService (writeBackendMetrics w u.source vs rs u.metrics).ctx u.source.vsID =
      .ok (Service.CalcServiceStat (updatedBackendService vs u.source.rsID rs u.metrics)) := by
    simp [GetService, hwm]
  have hub := updateBackend_eq env (writeBackendMetrics w u.source vs rs u.metrics)
      u.source.vsID u.source.rsID
      (if (Service.CalcServiceStat (updatedBackendService vs u.source.rsID rs u.metrics)).health = 0 ∧
          (Service.CalcServiceStat (updatedBackendService vs u.source.rsID rs u.metrics)).fallBack
            = "fb-zero-to-one"
       then 1 else 0)
      (updatedBackendService vs u.source.rsID rs u.metrics)
      ({ rs with metrics := u.metrics }) hwm hrs2
  have hmain : pulseStatusDown env (writeBackendMetrics w u.source vs rs u.metrics) stash u.source =
      (let c := IpvsCall.updateDestPort vs.options.host.ip vs.options.Port
        rs.options.host.ip rs.options.Port vs.options.protocol
        (if (Service.CalcServiceStat (updatedBackendService vs u.source.rsID rs u.metrics)).health = 0 ∧
            (Service.CalcServiceStat (updatedBackendService vs u.source.rsID rs u.metrics)).fallBack
              = "fb-zero-to-one"
         then 1 else 0) vs.options.methodID
       if env.ipvsOk c then
        ((if (alookup stash u.source).isSome then stash
          else aupsert stash u.source rs.options.weight),
         { ctx := { (writeBackendMetrics w u.source vs rs u.metrics).ctx with
             services := (aupsert (writeBackendMetrics w u.source vs rs u.metrics).ctx.services
               u.source.vsID
               { (updatedBackendService vs u.source.rsID rs u.metrics) with
                   backends := (aupsert (updatedBackendService vs u.source.rsID rs u.metrics).backends
                     u.source.rsID
                     { rs with metrics := u.metrics
                               options := { rs.options with weight :=
                                 (if (Service.CalcServiceStat (updatedBackendService vs u.source.rsID rs u.metrics)).health = 0 ∧
                                     (Service.CalcServiceStat (updatedBackendService vs u.source.rsID rs u.metrics)).fallBack
                                       = "fb-zero-to-one"
                                  then 1 else 0) } }) }) }
           kernel := (kernelApply w.kernel c)
           calls := (w.calls ++ [c]) })
       else (stash, { (writeBackendMetrics w u.source vs rs u.metrics) with
         calls := (w.calls ++ [c]) })) := by
    simp only [pulseStatusDown, hgs, fallbackFlagsVal_eq_one]
    rw [hub]
    simp only [show (updatedBackendService vs u.source.rsID rs u.metrics).options = vs.options
      from rfl]
    cases hok : env.ipvsOk (IpvsCall.updateDestPort vs.options.host.ip vs.options.Port
        rs.options.host.ip rs.options.Port vs.options.protocol
        (if (Service.CalcServiceStat (updatedBackendService vs u.source.rsID rs u.metrics)).health = 0 ∧
            (Service.CalcServiceStat (updatedBackendService vs u.source.rsID rs u.metrics)).fallBack
              = "fb-zero-to-one"
         then 1 else 0) vs.options.methodID) <;>
      by_cases hs : (alookup stash u.source).isSome <;>
        simp [hok, hs, writeBackendMetrics]
  constructor
  · rw [hred, hmain]
    cases hok : env.ipvsOk (IpvsCall.updateDestPort vs.options.host.ip vs.options.Port
        rs.options.host.ip rs.options.Port vs.options.protocol
        (if (Service.CalcServiceStat (updatedBackendService vs u.source.rsID rs u.metrics)).health = 0 ∧
            (Service.CalcServiceStat (updatedBackendService vs u.source.rsID rs u.metrics)).fallBack
              = "fb-zero-to-one"
         then 1 else 0) vs.options.methodID) <;>
      simp [hok, writeBackendMetrics]
  · intro hok
    rw [hred, hmain]
    simp [hok]

/-- Witness for C2: under fb-zero-to-one with the whole service collapsed
(single backend going Down with health 0), the kernel is programmed with
weight 1 and the stash records the prior weight 100. -/
theorem gorb_c2_pulse_down_witness :
    alookup wZ.ctx.services updDown.source.vsID = some svcWebZ ∧
    alookup svcWebZ.backends updDown.source.rsID = some rsB1 ∧
    updDown.metrics.status = .down ∧
    (processPulseUpdate envAll wZ [] updDown).2.calls =
      [IpvsCall.updateDestPort "10.0.0.1" 80 "10.0.0.2" 8080 6 1 0] ∧
    (processPulseUpdate envAll wZ [] updDown).1 = [(srcWB, (100 : Int))] := by
  have h := gorb_c2_pulse_down envAll wZ [] updDown svcWebZ rsB1 (by decide) (by decide) rfl
  have hcond : (Service.CalcServiceStat
        (updatedBackendService svcWebZ updDown.source.rsID rsB1 updDown.metrics)).health = 0 ∧
      (Service.CalcServiceStat
        (updatedBackendService svcWebZ updDown.source.rsID rsB1 updDown.metrics)).fallBack
        = "fb-zero-to-one" := by
    constructor
    · norm_num [Service.CalcServiceStat, updatedBackendService, aupsert, svcWebZ, svcWeb,
        rsB1, boB1, updDown, srcWB, soWeb]
    · norm_num [Service.CalcServiceStat, updatedBackendService, aupsert, svcWebZ, svcWeb,
        rsB1, boB1, updDown, srcWB, soWeb]
  refine ⟨by decide, by decide, rfl, ?_, ?_⟩
  · rw [h.1]
    simp only [hcond.1, hcond.2]
    decide
  · rw [h.2 (by decide)]
    decide

theorem compareBackends_snapshot (vsID : String) (bs : List (String × Backend))
    (st : StoreSyncStatus) :
    bs.foldl (compareBackendsStep vsID) (st, bs.map (fun e => (e.1, e.2.options))) = (st, []) := by
  induction bs generalizing st with
  | nil => rfl
  | cons p t ih =>
    obtain ⟨r, b⟩ := p
    have hstep : compareBackendsStep vsID (st, ((r, b.options) :: t.map (fun e => (e.1, e.2.options)))) (r, b) =
        (st, t.map (fun e => (e.1, e.2.options))) := by
      simp [compareBackendsStep, alookup_cons_self, backendCompare_refl, aerase_cons_self]
    simpa [hstep] using ih st

theorem compareServices_snapshot (services : List (String × Service)) (st : StoreSyncStatus) :
    services.foldl compareServicesStep (st, services.map (fun e => (e.1, e.2.snapshotConfig))) =
      (st, []) := by
  induction services generalizing st with
  | nil => rfl
  | cons p t ih =>
    obtain ⟨v, s⟩ := p
    have hstep : compareServicesStep (st, ((v, s.snapshotConfig) :: t.map (fun e => (e.1, e.2.snapshotConfig)))) (v, s) =
        (st, t.map (fun e => (e.1, e.2.snapshotConfig))) := by
      simp only [compareServicesStep, alookup_cons_self, Service.snapshotConfig,
        serviceCompare_refl, aerase_cons_self, not_true, if_false]
      rw [compareBackends_snapshot v s.backends st]
      rfl
    simp only [List.map_cons, List.foldl_cons]
    rw [hstep]
    exact ih st

/-- C7.  CompareWith applied to an exact snapshot of the running state
yields Status "ok" with all six buckets empty, where service options are
compared on the nine public fields and backend options on Host and Port
only. -/
theorem gorb_c7_compare_roundtrip :
    (∀ ctx : Ctx, CompareWith ctx ctx.snapshot =
      ({ removedServices := [], removedBackends := [], updatedServices := []
         updatedBackends := [], newServices := [], newBackends := [], status := "ok" }, [])) ∧
    (∀ o o2 : ServiceOptions, o.CompareStoreOptions o2 = true ↔
      (o.Host = o2.Host ∧ o.Port = o2.Port ∧ o.Protocol = o2.Protocol ∧ o.ShFlags = o2.ShFlags ∧
       o.LbMethod = o2.LbMethod ∧ o.Persistent = o2.Persistent ∧ o.Fallback = o2.Fallback ∧
       o.FwdMethod = o2.FwdMethod ∧ o.MaxWeight = o2.MaxWeight)) ∧
    (∀ b b2 : BackendOptions, b.CompareStoreOptions b2 = true ↔
      (b.Host = b2.Host ∧ b.Port = b2.Port)) := by
  refine ⟨?_, ?_, ?_⟩
  · intro ctx
    have h := compareServices_snapshot ctx.services StoreSyncStatus.empty
    simp only [CompareWith, Ctx.snapshot]
    rw [h]
    simp [StoreSyncStatus.CheckStatus, StoreSyncStatus.empty]
  · intro o o2
    unfold ServiceOptions.CompareStoreOptions
    split_ifs <;> simp_all
  · intro b b2
    unfold BackendOptions.CompareStoreOptions
    split_ifs <;> simp_all

theorem compareServices_store (services : List (String × Service)) (st : StoreSyncStatus)
    (store : List (String × ServiceConfig)) :
    (services.foldl compareServicesStep (st, store)).2 =
      services.foldl (fun s e => aerase s e.1) store := by
  induction services generalizing st store with
  | nil => rfl
  | cons p t ih =>
    obtain ⟨v, s⟩ := p
    simp only [List.foldl_cons]
    rcases hs : compareServicesStep (st, store) (v, s) with ⟨st2, store2⟩
    have h2 : store2 = aerase store v := by
      cases h : alookup store v with
      | none =>
        have h3 : (compareServicesStep (st, store) (v, s)).2 = store := by
          simp [compareServicesStep, h]
        rw [hs] at h3
        rw [aerase_of_alookup_none h]
        exact h3
      | some cfg =>
        have h3 : (compareServicesStep (st, store) (v, s)).2 = aerase store v := by
          simp [compareServicesStep, h]
        rw [hs] at h3
        exact h3
    rw [ih st2 store2, h2]

theorem foldl_aerase_filter (services : List (String × Service))
    (store : List (String × ServiceConfig)) (h : (store.map Prod.fst).Nodup) :
    services.foldl (fun s e => aerase s e.1) store =
      store.filter (fun e => (alookup services e.1).isNone) := by
  induction services generalizing store with
  | nil =>
    simp only [List.foldl_nil, alookup, Option.isNone_none]
    exact (List.filter_eq_self.mpr (fun e _ => rfl)).symm
  | cons p t ih =>
    obtain ⟨v, s⟩ := p
    simp only [List.foldl_cons]
    rw [aerase_eq_filter store v h]
    have hn : ((store.filter (fun e => e.1 ≠ v)).map Prod.fst).Nodup :=
      ((store.filter_sublist (p := fun e => decide (e.1 ≠ v))).map Prod.fst).nodup h
    rw [ih _ hn, List.filter_filter]
    apply List.filter_congr
    intro e _
    by_cases hv : v = e.1
    · simp [alookup, hv]
    · have hv2 : ¬ e.1 = v := fun hh => hv hh.symm
      simp [alookup, hv, hv2]

/-- C10.  CompareWith consumes the desired-state map it is given: every
service matched against a running one is deleted (together with its
matched backends, which vanish with the entry), so the returned map holds
exactly the entries whose vsID is not running; the Context is only read
(the function takes it read-only and returns no modified Context). -/
theorem gorb_c10_compareWith_mutates (ctx : Ctx) (store : List (String × ServiceConfig))
    (h : (store.map Prod.fst).Nodup) :
    (CompareWith ctx store).2 = store.filter (fun e => (alookup ctx.services e.1).isNone) := by
  rcases hf : ctx.services.foldl compareServicesStep (StoreSyncStatus.empty, store) with ⟨st, store2⟩
  have h2 : store2 = ctx.services.foldl (fun s e => aerase s e.1) store := by
    rw [← compareServices_store ctx.services StoreSyncStatus.empty store, hf]
  simp only [CompareWith, hf]
  rw [h2, foldl_aerase_filter ctx.services store h]

/-- Witness for C10: against a running context with service "web", a
desired map holding "web" and a new "vs9" is left holding only "vs9". -/
theorem gorb_c10_compareWith_mutates_witness :
    (([("web", Service.snapshotConfig svcWeb), ("vs9", cfgDesired)].map
        (Prod.fst (β := ServiceConfig))).Nodup) ∧
    (CompareWith ctx0 [("web", Service.snapshotConfig svcWeb), ("vs9", cfgDesired)]).2 =
      [("vs9", cfgDesired)] := by
  constructor
  · decide
  · rw [gorb_c10_compareWith_mutates ctx0 _ (by decide)]
    decide

/-- C8 (amended).  For an unknown vsID GetService returns ObjectNotFound;
for an existing service with fewer than 2^16 backends it returns the rsID
list, the backend count, the service's Fallback, and health equal to the
arithmetic mean of the backend healths (exactly 0 with no backends).  The
2^16 bound is forced by the uint16 cast in CalcServiceStat. -/
theorem gorb_c8_getService (ctx : Ctx) (vsID : String) :
    (alookup ctx.services vsID = none → GetService ctx vsID = .error .objectNotFound) ∧
    (∀ vs, alookup ctx.services vsID = some vs → vs.backends.length < 65536 →
      GetService ctx vsID = .ok (Service.CalcServiceStat vs) ∧
      (Service.CalcServiceStat vs).backends = vs.backends.map Prod.fst ∧
      (Service.CalcServiceStat vs).backendsCount = vs.backends.length ∧
      (Service.CalcServiceStat vs).fallBack = vs.options.Fallback ∧
      (vs.backends.length = 0 → (Service.CalcServiceStat vs).health = 0) ∧
      (vs.backends.length ≠ 0 →
        (Service.CalcServiceStat vs).health =
          (vs.backends.map (fun e => e.2.metrics.health)).sum / (vs.backends.length : ℚ))) := by
  constructor
  · intro h
    simp [GetService, h]
  · intro vs hvs hlt
    have hmod : vs.backends.length % 65536 = vs.backends.length := Nat.mod_eq_of_lt hlt
    refine ⟨by simp [GetService, hvs], ?_, ?_, ?_, ?_, ?_⟩
    · by_cases h0 : vs.backends.length = 0
      · have hnil : vs.backends = [] := List.eq_nil_of_length_eq_zero h0
        simp [Service.CalcServiceStat, hmod, h0, hnil]
      · simp [Service.CalcServiceStat, hmod, h0]
    · by_cases h0 : vs.backends.length = 0 <;>
        simp [Service.CalcServiceStat, hmod, h0]
    · by_cases h0 : vs.backends.length = 0 <;>
        simp [Service.CalcServiceStat, hmod, h0]
    · intro h0
      simp [Service.CalcServiceStat, hmod, h0]
    · intro h0
      simp [Service.CalcServiceStat, hmod, h0, foldl_add_health]

/-- Witness for C8: on the sample context, GetService aggregates the
single backend into count 1, backend list `b1`, health 1 and the default
fallback. -/
theorem gorb_c8_getService_witness :
    alookup ctx0.services "web" = some svcWeb ∧ svcWeb.backends.length < 65536 ∧
    GetService ctx0 "web" = .ok (Service.CalcServiceStat svcWeb) ∧
    (Service.CalcServiceStat svcWeb).backends = ["b1"] ∧
    (Service.CalcServiceStat svcWeb).backendsCount = 1 ∧
    (Service.CalcServiceStat svcWeb).fallBack = "fb-default" := by
  have h := (gorb_c8_getService ctx0 "web").2 svcWeb (by decide) (by decide)
  refine ⟨by decide, by decide, h.1, ?_, ?_, ?_⟩
  · rw [h.2.1]
    decide
  · rw [h.2.2.1]
    decide
  · rw [h.2.2.2.1]
    decide

/-- Counterexample for C8 as stated: a service holding 65536 backends (all
with health 1) exists in the context, yet GetService reports an empty
backend list, backend count 0 and health 0 — the uint16 cast in
CalcServiceStat wrapped around, so the count is not the number of backends
and the health is not the arithmetic mean. -/
theorem gorb_c8_counterexample :
    svcBig.backends.length = 65536 ∧
    GetService ctxBig "big" =
      .ok { options := soWeb, health := 0, backends := [], backendsCount := 0
            fallBack := "fb-default" } := by
  have hlen : svcBig.backends.length = 65536 := by
    simp [svcBig, bigBackends]
  refine ⟨hlen, ?_⟩
  have hvs : alookup ctxBig.services "big" = some svcBig := by
    simp [ctxBig, alookup]
  simp only [GetService, hvs]
  have hopt : svcBig.options = soWeb := rfl
  have hcalc : Service.CalcServiceStat svcBig =
      { options := soWeb, health := 0, backends := [], backendsCount := 0
        fallBack := "fb-default" } := by
    simp only [Service.CalcServiceStat, hlen]
    norm_num [hopt, soWeb]
  rw [hcalc]

/-- C3 (code bug).  One running service "vs1" is present in the desired
map with unequal options (LbMethod differs) and one desired backend; every
IPVS call succeeds.  Synchronize removes and re-creates the service —
createService already creates the bundled backend — and then the
new-backend loop tries to create the same backend again, so Synchronize
returns ObjectExists instead of nil, aborting the rest of the sync. -/
theorem gorb_c3_synchronize_bug :
    ({ svcWeb0 with vsID := "vs1" } : Service).options.CompareStoreOptions
      cfgDesired.ServiceOptions = false ∧
    alookup wSync.ctx.services "vs1" = some { svcWeb0 with vsID := "vs1" } ∧
    (Synchronize envAll wSync [("vs1", cfgDesired)]).1 = .error .objectExists :=
  ⟨rfl, rfl, rfl⟩

theorem backendValidate_idem (resolve : String → Option IPAddr) (o o2 : BackendOptions)
    (h : o.Validate resolve = .ok o2) : o2.Validate resolve = .ok o2 := by
  unfold BackendOptions.Validate at h
  by_cases h1 : o.Host.length = 0 ∨ o.Port = 0
  · simp [h1] at h
  · simp only [h1, if_false] at h
    cases hres : resolve o.Host with
    | none => rw [hres] at h; simp at h
    | some a =>
      rw [hres] at h
      simp only [Except.ok.injEq] at h
      subst h
      simp [BackendOptions.Validate, h1, hres]

/-- C9.  A successful CreateBackend for a fresh destination programs
AddDestPort with weight MaxWeight, while the registered in-memory Backend
keeps the weight field of the (deserialized) options — 0 — so the first
UpdateBackend on it returns previous weight 0, not MaxWeight. -/
theorem gorb_c9_createBackend (env : Env) (w : World) (vsID rsID : String)
    (opts : BackendOptions) (vs : Service) (vopts : BackendOptions) (pool : KPool)
    (hvs : alookup w.ctx.services vsID = some vs)
    (hnew : alookup vs.backends rsID = none)
    (hval : opts.Validate env.resolve = .ok vopts)
    (haf : vopts.host.v4 = vs.options.host.v4)
    (hgp : env.getPoolsOk = true)
    (hpool : w.kernel.find? (fun p => p.service.IsEqual vs.svc) = some pool)
    (hnodest : pool.dests.any (fun d => d.ip == vopts.host.ip && d.port == vopts.Port) = false)
    (hadd : env.ipvsOk (IpvsCall.addDestPort vs.options.host.ip vs.options.Port vopts.host.ip
      vopts.Port vs.options.protocol vs.options.MaxWeight vs.options.methodID) = true)
    (hpulse : env.pulseNewOk vopts.host.ip vopts.Port vs.options.Pulse = true)
    (hw0 : vopts.weight = 0) :
    ∃ w2, createBackend env w vsID rsID opts = (.ok (), w2) ∧
      w2.calls = w.calls ++ [IpvsCall.getPools, IpvsCall.addDestPort vs.options.host.ip
        vs.options.Port vopts.host.ip vopts.Port vs.options.protocol vs.options.MaxWeight
        vs.options.methodID] ∧
      (∃ vs2, alookup w2.ctx.services vsID = some vs2 ∧ vs2.options = vs.options ∧
        alookup vs2.backends rsID = some { options := vopts, metrics := Metrics.zero }) ∧
      (∀ nw : Int, env.ipvsOk (IpvsCall.updateDestPort vs.options.host.ip vs.options.Port
          vopts.host.ip vopts.Port vs.options.protocol nw vs.options.methodID) = true →
        (updateBackend env w2 vsID rsID nw).1 = .ok 0) := by
  have hbe : vs.BackendExist rsID = false := by simp [Service.BackendExist, hnew]
  have hvalid2 := backendValidate_idem env.resolve opts vopts hval
  have hrun : createBackend env w vsID rsID opts =
      (.ok (),
       { ctx := { w.ctx with services := (aupsert w.ctx.services vsID
           { vs with backends := (aupsert vs.backends rsID
               { options := vopts, metrics := Metrics.zero }) }) }
         kernel := (kernelApply w.kernel (IpvsCall.addDestPort vs.options.host.ip vs.options.Port
           vopts.host.ip vopts.Port vs.options.protocol vs.options.MaxWeight vs.options.methodID))
         calls := (w.calls ++ [IpvsCall.getPools, IpvsCall.addDestPort vs.options.host.ip
           vs.options.Port vopts.host.ip vopts.Port vs.options.protocol vs.options.MaxWeight
           vs.options.methodID]) }) := by
    simp [createBackend, hvs, hbe, hval, haf, GetPoolForService, hgp, hpool, hnodest,
      doIpvs, hadd, Service.CreateBackend, hvalid2, hpulse]
  refine ⟨_, hrun, by simp,
    ⟨{ vs with backends := (aupsert vs.backends rsID { options := vopts, metrics := Metrics.zero }) },
      by simp [alookup_aupsert_self], rfl, by simp [alookup_aupsert_self]⟩, ?_⟩
  intro nw hok
  have hub := updateBackend_eq env
    ({ ctx := { w.ctx with services := (aupsert w.ctx.services vsID
         { vs with backends := (aupsert vs.backends rsID
             { options := vopts, metrics := Metrics.zero }) }) }
       kernel := (kernelApply w.kernel (IpvsCall.addDestPort vs.options.host.ip vs.options.Port
         vopts.host.ip vopts.Port vs.options.protocol vs.options.MaxWeight vs.options.methodID))
       calls := (w.calls ++ [IpvsCall.getPools, IpvsCall.addDestPort vs.options.host.ip
         vs.options.Port vopts.host.ip vopts.Port vs.options.protocol vs.options.MaxWeight
         vs.options.methodID]) } : World)
    vsID rsID nw
    ({ vs with backends := (aupsert vs.backends rsID { options := vopts, metrics := Metrics.zero }) })
    ({ options := vopts, metrics := Metrics.zero })
    (by simp [alookup_aupsert_self]) (by simp [alookup_aupsert_self])
  rw [hub]
  simp [hok, hw0]

/-- Witness for C9: creating backend b1 from zero-weight options programs
the kernel with weight MaxWeight = 100, while the first UpdateBackend (to
55) returns previous weight 0. -/
theorem gorb_c9_createBackend_witness :
    alookup wB.ctx.services "web" = some svcWeb0 ∧
    BackendOptions.Validate envAll.resolve boNew = .ok boNew ∧ boNew.weight = 0 ∧
    (createBackend envAll wB "web" "b1" boNew).2.calls =
      [IpvsCall.getPools, IpvsCall.addDestPort "10.0.0.1" 80 "10.0.0.2" 8080 6 100 0] ∧
    (updateBackend envAll (createBackend envAll wB "web" "b1" boNew).2 "web" "b1" 55).1 =
      .ok 0 := by
  have h := gorb_c9_createBackend envAll wB "web" "b1" boNew svcWeb0 boNew
      ({ service := derivedKService soWeb, dests := [] }) rfl rfl rfl rfl rfl rfl rfl rfl rfl rfl
  obtain ⟨w2, hrun, hcalls, _, hupd⟩ := h
  refine ⟨rfl, rfl, rfl, ?_, ?_⟩
  · simp only [hrun]
    rw [hcalls]
    decide
  · simp only [hrun]
    exact hupd 55 rfl

theorem getPoolForService_world (env : Env) (w : World) (svc : KService) :
    (GetPoolForService env w svc).2 = { w with calls := w.calls ++ [IpvsCall.getPools] } := by
  unfold GetPoolForService
  by_cases h : env.getPoolsOk
  · simp only [h, if_true]
    cases hf : ({ w with calls := w.calls ++ [IpvsCall.getPools] } : World).kernel.find?
        (fun p => p.service.IsEqual svc) <;> simp [hf]
  · simp [h]

theorem doIpvs_calls (env : Env) (w : World) (c : IpvsCall) :
    ((doIpvs env w c).2).calls = w.calls ++ [c] := by
  unfold doIpvs
  by_cases h : env.ipvsOk c <;> simp [h]

theorem doIpvs_ctx (env : Env) (w : World) (c : IpvsCall) :
    ((doIpvs env w c).2).ctx = w.ctx := by
  unfold doIpvs
  by_cases h : env.ipvsOk c <;> simp [h]

theorem serviceCreateBackend_ok (env : Env) (vs : Service) (rsID : String)
    (opts : BackendOptions) (vs2 : Service)
    (h : Service.CreateBackend env vs rsID opts = .ok vs2) :
    vs2.options = vs.options ∧ vs2.svc = vs.svc := by
  unfold Service.CreateBackend at h
  cases hv : opts.Validate env.resolve with
  | error e =>
    rw [hv] at h
    simp at h
  | ok o2 =>
    rw [hv] at h
    by_cases hp : env.pulseNewOk o2.host.ip o2.Port vs.options.Pulse
    · simp only [hp, if_true, Except.ok.injEq] at h
      rw [← h]
      exact ⟨rfl, rfl⟩
    · simp [hp] at h

theorem createBackend_effect (env : Env) (w : World) (vsID rsID : String) (opts : BackendOptions) :
    (∀ c ∈ (createBackend env w vsID rsID opts).2.calls, c ∈ w.calls ∨ c.isServiceCreation = false) ∧
    (∀ k s, alookup w.ctx.services k = some s →
      ∃ s2, alookup (createBackend env w vsID rsID opts).2.ctx.services k = some s2 ∧
        s2.options = s.options ∧ s2.svc = s.svc) := by
  have hkeep : ∀ w2 : World, w2 = w →
      (∀ c ∈ w2.calls, c ∈ w.calls ∨ c.isServiceCreation = false) ∧
      (∀ k s, alookup w.ctx.services k = some s →
        ∃ s2, alookup w2.ctx.services k = some s2 ∧ s2.options = s.options ∧ s2.svc = s.svc) := by
    intro w2 h
    subst h
    exact ⟨fun c hc => Or.inl hc, fun k s hk => ⟨s, hk, rfl, rfl⟩⟩
  have hmemgp : ∀ c, c ∈ w.calls ++ [IpvsCall.getPools] → c ∈ w.calls ∨ c.isServiceCreation = false := by
    intro c hc
    rcases List.mem_append.mp hc with hc | hc
    · exact Or.inl hc
    · rw [List.mem_singleton.mp hc]
      exact Or.inr rfl
  cases h1 : alookup w.ctx.services vsID with
  | none =>
    have hres : createBackend env w vsID rsID opts = (.error .objectNotFound, w) := by
      simp [createBackend, h1]
    rw [hres]
    exact hkeep w rfl
  | some vs =>
    by_cases h2 : vs.BackendExist rsID
    · have hres : createBackend env w vsID rsID opts = (.error .objectExists, w) := by
        simp [createBackend, h1, h2]
      rw [hres]
      exact hkeep w rfl
    · cases h3 : opts.Validate env.resolve with
      | error e =>
        have hres : createBackend env w vsID rsID opts = (.error e, w) := by
          simp [createBackend, h1, h2, h3]
        rw [hres]
        exact hkeep w rfl
      | ok vopts =>
        by_cases h4 : vopts.host.v4 ≠ vs.options.host.v4
        · have hres : createBackend env w vsID rsID opts = (.error .incompatibleAFs, w) := by
            simp [createBackend, h1, h2, h3, h4]
          rw [hres]
          exact hkeep w rfl
        · rcases hp : GetPoolForService env w vs.svc with ⟨poolRes, w1⟩
          have hw1 : w1 = { w with calls := w.calls ++ [IpvsCall.getPools] } := by
            have hh := getPoolForService_world env w vs.svc
            rw [hp] at hh
            exact hh
          have hw1calls : ∀ c ∈ w1.calls, c ∈ w.calls ∨ c.isServiceCreation = false := by
            rw [hw1]
            exact hmemgp
          have hw1ctx : w1.ctx = w.ctx := by rw [hw1]
          have hreg : ∀ w3 : World, ∀ vs2 : Service,
              Service.CreateBackend env vs rsID vopts = .ok vs2 → w3.ctx = w.ctx →
              ∀ k s, alookup w.ctx.services k = some s →
              ∃ s2, alookup { w3 with ctx := { w3.ctx with
                  services := aupsert w3.ctx.services vsID vs2 } }.ctx.services k = some s2 ∧
                s2.options = s.options ∧ s2.svc = s.svc := by
            intro w3 vs2 h6 hctx k s hk
            by_cases hkk : vsID = k
            · subst hkk
              have hsv : s = vs := by
                rw [h1] at hk
                exact (Option.some.inj hk).symm
              have hopt := serviceCreateBackend_ok env vs rsID vopts vs2 h6
              refine ⟨vs2, ?_, ?_, ?_⟩
              · simp [alookup_aupsert]
              · rw [hopt.1, hsv]
              · rw [hopt.2, hsv]
            · refine ⟨s, ?_, rfl, rfl⟩
              simp only [alookup_aupsert, if_neg hkk, hctx]
              exact hk
          cases poolRes with
          | error e =>
            have hres : createBackend env w vsID rsID opts = (.error .ipvsSyscallFailed, w1) := by
              simp [createBackend, h1, h2, h3, h4, hp]
            rw [hres]
            refine ⟨hw1calls, ?_⟩
            intro k s hk
            refine ⟨s, ?_, rfl, rfl⟩
            rw [hw1ctx]
            exact hk
          | ok pool =>
            by_cases h5 : pool.dests.any (fun d => d.ip == vopts.host.ip && d.port == vopts.Port)
            · cases h6 : Service.CreateBackend env vs rsID vopts with
              | error e =>
                have hres : createBackend env w vsID rsID opts = (.error e, w1) := by
                  simp [createBackend, h1, h2, h3, h4, hp, h5, h6]
                rw [hres]
                refine ⟨hw1calls, ?_⟩
                intro k s hk
                refine ⟨s, ?_, rfl, rfl⟩
                rw [hw1ctx]
                exact hk
              | ok vs2 =>
                have hres : createBackend env w vsID rsID opts =
                    (.ok (), { w1 with ctx := { w1.ctx with
                      services := aupsert w1.ctx.services vsID vs2 } }) := by
                  simp [createBackend, h1, h2, h3, h4, hp, h5, h6]
                rw [hres]
                exact ⟨hw1calls, hreg w1 vs2 h6 hw1ctx⟩
            · rcases hd : doIpvs env w1 (.addDestPort vs.options.host.ip vs.options.Port
                  vopts.host.ip vopts.Port vs.options.protocol vs.options.MaxWeight
                  vs.options.methodID) with ⟨okb, w2⟩
              have hw2calls : ∀ c ∈ w2.calls, c ∈ w.calls ∨ c.isServiceCreation = false := by
                have hh := doIpvs_calls env w1 (.addDestPort vs.options.host.ip vs.options.Port
                  vopts.host.ip vopts.Port vs.options.protocol vs.options.MaxWeight
                  vs.options.methodID)
                rw [hd] at hh
                intro c hc
                rw [hh] at hc
                rcases List.mem_append.mp hc with hc | hc
                · exact hw1calls c hc
                · rw [List.mem_singleton.mp hc]
                  exact Or.inr rfl
              have hw2ctx : w2.ctx = w.ctx := by
                have hh := doIpvs_ctx env w1 (.addDestPort vs.options.host.ip vs.options.Port
                  vopts.host.ip vopts.Port vs.options.protocol vs.options.MaxWeight
                  vs.options.methodID)
                rw [hd] at hh
                rw [hh, hw1ctx]
              cases okb with
              | false =>
                have hres : createBackend env w vsID rsID opts = (.error .ipvsSyscallFailed, w2) := by
                  simp [createBackend, h1, h2, h3, h4, hp, h5, hd]
                rw [hres]
                refine ⟨hw2calls, ?_⟩
                intro k s hk
                refine ⟨s, ?_, rfl, rfl⟩
                rw [hw2ctx]
                exact hk
              | true =>
                cases h6 : Service.CreateBackend env vs rsID vopts with
                | error e =>
                  have hres : createBackend env w vsID rsID opts = (.error e, w2) := by
                    simp [createBackend, h1, h2, h3, h4, hp, h5, hd, h6]
                  rw [hres]
                  refine ⟨hw2calls, ?_⟩
                  intro k s hk
                  refine ⟨s, ?_, rfl, rfl⟩
                  rw [hw2ctx]
                  exact hk
                | ok vs2 =>
                  have hres : createBackend env w vsID rsID opts =
                      (.ok (), { w2 with ctx := { w2.ctx with
                        services := aupsert w2.ctx.services vsID vs2 } }) := by
                    simp [createBackend, h1, h2, h3, h4, hp, h5, hd, h6]
                  rw [hres]
                  exact ⟨hw2calls, hreg w2 vs2 h6 hw2ctx⟩

theorem createBackendsLoop_effect (env : Env) (vsID : String)
    (bs : List (String × BackendOptions)) : ∀ w : World,
    (∀ c ∈ (createBackendsLoop env vsID w bs).2.calls, c ∈ w.calls ∨ c.isServiceCreation = false) ∧
    (∀ k s, alookup w.ctx.services k = some s →
      ∃ s2, alookup (createBackendsLoop env vsID w bs).2.ctx.services k = some s2 ∧
        s2.options = s.options ∧ s2.svc = s.svc) := by
  induction bs with
  | nil =>
    intro w
    exact ⟨fun c hc => Or.inl hc, fun k s hk => ⟨s, hk, rfl, rfl⟩⟩
  | cons p t ih =>
    intro w
    obtain ⟨r, o⟩ := p
    rcases hc1 : createBackend env w vsID r o with ⟨res, w2⟩
    have hstep := createBackend_effect env w vsID r o
    rw [hc1] at hstep
    cases res with
    | error e =>
      have hres : createBackendsLoop env vsID w ((r, o) :: t) = (.error e, w2) := by
        simp [createBackendsLoop, hc1]
      rw [hres]
      exact hstep
    | ok u =>
      have hres : createBackendsLoop env vsID w ((r, o) :: t) = createBackendsLoop env vsID w2 t := by
        simp [createBackendsLoop, hc1]
      rw [hres]
      have hih := ih w2
      constructor
      · intro c hc
        rcases hih.1 c hc with hc2 | hc2
        · exact hstep.1 c hc2
        · exact Or.inr hc2
      · intro k s hk
        obtain ⟨s2, hs2, ho, hv⟩ := hstep.2 k s hk
        obtain ⟨s3, hs3, ho2, hv2⟩ := hih.2 k s2 hs2
        exact ⟨s3, hs3, ho2.trans ho, hv2.trans hv⟩

/-- C5.  createService returns ObjectExists, changing nothing, when the
vsID is taken (and validation passed); with a fresh vsID and a kernel pool
already matching the derived descriptor, no AddService or
AddServiceWithFlags call is issued and the in-memory entry is still
installed (with the validated options and derived descriptor); and when
no pool matches and the creation call fails, it returns SyscallFailed
having recorded only the GetPools probe and the failed creation call,
with the Context unchanged. -/
theorem gorb_c5_createService (env : Env) (w : World) (vsID : String) (cfg : ServiceConfig)
    (so : ServiceOptions)
    (hval : cfg.ServiceOptions.Validate env.resolve w.ctx.endpoint = .ok so) :
    ((alookup w.ctx.services vsID).isSome = true →
      createService env w vsID cfg = (.error .objectExists, w)) ∧
    (alookup w.ctx.services vsID = none → env.getPoolsOk = true →
      ∀ pool, w.kernel.find? (fun p => p.service.IsEqual (derivedKService (vipAdjust env so)))
        = some pool →
      (∀ c ∈ (createService env w vsID cfg).2.calls, c ∈ w.calls ∨ c.isServiceCreation = false) ∧
      (∃ s2, alookup (createService env w vsID cfg).2.ctx.services vsID = some s2 ∧
        s2.options = vipAdjust env so ∧ s2.svc = derivedKService (vipAdjust env so))) ∧
    (alookup w.ctx.services vsID = none →
      (env.getPoolsOk = false ∨
        w.kernel.find? (fun p => p.service.IsEqual (derivedKService (vipAdjust env so))) = none) →
      env.ipvsOk (serviceAddCall (derivedKService (vipAdjust env so))) = false →
      createService env w vsID cfg =
        (.error .ipvsSyscallFailed,
         { w with calls := (w.calls ++ [IpvsCall.getPools,
             serviceAddCall (derivedKService (vipAdjust env so))]) })) := by
  refine ⟨?_, ?_, ?_⟩
  · intro hsome
    simp [createService, hval, hsome]
  · intro hnone hgp pool hfp
    have hgpfs : GetPoolForService env w (derivedKService (vipAdjust env so)) =
        (.ok pool, { w with calls := w.calls ++ [IpvsCall.getPools] }) := by
      simp [GetPoolForService, hgp, hfp]
    have hres : createService env w vsID cfg =
        createBackendsLoop env vsID
          { ctx := { w.ctx with services := (aupsert w.ctx.services vsID
              { vsID := vsID, options := vipAdjust env so
                svc := derivedKService (vipAdjust env so), backends := [] }) }
            kernel := w.kernel
            calls := (w.calls ++ [IpvsCall.getPools]) } cfg.ServiceBackends := by
      simp [createService, hval, hnone, hgpfs]
    rw [hres]
    have hloop := createBackendsLoop_effect env vsID cfg.ServiceBackends
      { ctx := { w.ctx with services := (aupsert w.ctx.services vsID
          { vsID := vsID, options := vipAdjust env so
            svc := derivedKService (vipAdjust env so), backends := [] }) }
        kernel := w.kernel
        calls := (w.calls ++ [IpvsCall.getPools]) }
    constructor
    · intro c hc
      rcases hloop.1 c hc with hc2 | hc2
      · rcases List.mem_append.mp hc2 with hc3 | hc3
        · exact Or.inl hc3
        · rw [List.mem_singleton.mp hc3]
          exact Or.inr rfl
      · exact Or.inr hc2
    · have hself : alookup (aupsert w.ctx.services vsID
          ({ vsID := vsID, options := vipAdjust env so
             svc := derivedKService (vipAdjust env so), backends := [] } : Service)) vsID =
          some { vsID := vsID, options := vipAdjust env so
                 svc := derivedKService (vipAdjust env so), backends := [] } :=
        alookup_aupsert_self w.ctx.services vsID _
      obtain ⟨s2, hs2, ho, hv⟩ := hloop.2 vsID _ hself
      exact ⟨s2, hs2, ho, hv⟩
  · intro hnone hfail haddfail
    have hw1 : ∃ e, GetPoolForService env w (derivedKService (vipAdjust env so)) =
        (.error e, { w with calls := w.calls ++ [IpvsCall.getPools] }) := by
      rcases hfail with hfail | hfail
      · exact ⟨.ipvsSyscallFailed, by simp [GetPoolForService, hfail]⟩
      · by_cases hg : env.getPoolsOk
        · exact ⟨.poolNotFound, by simp [GetPoolForService, hg, hfail]⟩
        · exact ⟨.ipvsSyscallFailed, by simp [GetPoolForService, hg]⟩
    obtain ⟨e, hgpfs⟩ := hw1
    simp [createService, hval, hnone, hgpfs, doIpvs, haddfail]

/-- Witness for C5: creating "api" over a kernel that already holds a pool
for 10.0.0.1:80/tcp issues no AddService or AddServiceWithFlags call (the
trace is GetPools, then the backend's GetPools and AddDestPort) and still
installs the in-memory entry. -/
theorem gorb_c5_createService_witness :
    alookup wB.ctx.services "api" = none ∧
    cfgDesired.ServiceOptions.Validate envAll.resolve wB.ctx.endpoint =
      .ok { soWeb with LbMethod := "sh" } ∧
    (wB.kernel.find? (fun p => p.service.IsEqual
      (derivedKService (vipAdjust envAll { soWeb with LbMethod := "sh" })))) =
      some { service := derivedKService soWeb, dests := [] } ∧
    (∃ s2, alookup (createService envAll wB "api" cfgDesired).2.ctx.services "api" = some s2 ∧
      s2.options = vipAdjust envAll { soWeb with LbMethod := "sh" }) ∧
    (createService envAll wB "api" cfgDesired).2.calls =
      [IpvsCall.getPools, IpvsCall.getPools,
        IpvsCall.addDestPort "10.0.0.1" 80 "10.0.0.2" 8080 6 100 0] := by
  have h := (gorb_c5_createService envAll wB "api" cfgDesired { soWeb with LbMethod := "sh" }
      rfl).2.1 rfl rfl ({ service := derivedKService soWeb, dests := [] }) rfl
  obtain ⟨-, s2, hs2, ho, -⟩ := h
  exact ⟨rfl, rfl, rfl, ⟨s2, hs2, ho⟩, rfl⟩
